import Mathlib

/-!
Verification development for the fm-knowledge-service core.

This file gives a shallow embedding, in Lean, of the parts of the service
that the verified properties talk about: the metadata store client
(`infrastructure/database/client.py`), the two vector-index providers
(`infrastructure/vectordb/chroma_local.py`, `pinecone_provider.py`), the
document manager (`core/document_manager.py`), the search manager
(`core/search_manager.py`), the job manager (`core/job_manager.py`) and the
unified search endpoint (`api/routes/knowledge_endpoints.py`).

Conventions of the embedding:
* Python `str` becomes `String`; character-level operations (`strip`,
  `lower`, slicing, substring tests, `split(",")`) are modelled on the
  underlying `List Char`.
* Scores and embedding components become `ℚ` (the code performs only
  comparisons, `max`/`min` clamping and affine arithmetic on them).
* Timestamps become `Nat`; each textual `datetime.now()` occurrence in the
  source is a separate clock reading, passed in explicitly.
* The relational store becomes a `List DocumentModel` in row order; SQL
  `WHERE`/`LIMIT`/`OFFSET` become `filter`/`take`/`drop`.
* The external backends (ChromaDB collection, Pinecone index, the
  sentence-transformers embedding model) are collaborators outside the
  repository; they are abstracted as explicit inputs: raw hit lists for the
  provider formatting code, a query function parameter for the search
  manager, an embedding function parameter wherever an embedding is made.
* Async calls are sequential state passing; a failing backend call is an
  explicit boolean failure injection.
-/

/-! ## String helpers modelling Python `str` operations -/

/-- Trim ASCII/Unicode whitespace from both ends of a character list;
this is Python `str.strip()` on the underlying characters. -/
def trimChars (l : List Char) : List Char :=
  ((l.dropWhile Char.isWhitespace).reverse.dropWhile Char.isWhitespace).reverse

/-- Python `s.strip()`. -/
def pyStrip (s : String) : String :=
  String.mk (trimChars s.data)

/-- Python `s.lower()`. -/
def pyLower (s : String) : String :=
  String.mk (s.data.map Char.toLower)

/-- Python `s[:n]` for a non-negative slice bound. -/
def pySlice (s : String) (n : Nat) : String :=
  String.mk (s.data.take n)

/-- Python `s.split(",")` on the underlying characters: `""` gives `[[]]`,
and a trailing comma gives a trailing empty field, as in Python. -/
def splitOnComma (l : List Char) : List (List Char) :=
  l.foldr
    (fun c acc =>
      if c = ',' then [] :: acc
      else
        match acc with
        | [] => [[c]]
        | h :: t => (c :: h) :: t)
    [[]]

/-- `[t.strip() for t in s.split(",") if t.strip()]` — the tag-string
parsing used by the search manager on vector metadata. -/
def parseTags (s : String) : List String :=
  ((splitOnComma s.data).map (fun cs => String.mk (trimChars cs))).filter
    (fun t => t ≠ "")

/-- Whether the first list is an initial segment of the second. -/
def startsWithChars : List Char → List Char → Bool
  | [], _ => true
  | _ :: _, [] => false
  | a :: ra, b :: rb => a = b && startsWithChars ra rb

/-- Python `needle in hay` for strings: contiguous substring test. -/
def containsSub (needle : List Char) : List Char → Bool
  | [] => needle.isEmpty
  | c :: rest => startsWithChars needle (c :: rest) || containsSub needle rest

/-- `",".join(ts)` — how `document_manager.py` joins tags before storing
them in vector metadata. -/
def joinTags (ts : List String) : String :=
  String.intercalate "," ts

/-- The 200-character content snippet of `search_manager.py`:
`content[:200] + "..." if len(content) > 200 else content`. -/
def snippetOf (content : String) : String :=
  if content.length > 200 then pySlice content 200 ++ "..." else content

/-! ## Data model (`infrastructure/database/models.py`, `models/document.py`) -/

/-- A row of the `documents` table (`DocumentModel` in `models.py`).
`doc_metadata` is the free-form JSON column, modelled as key/value pairs. -/
structure DocumentModel where
  document_id : String
  user_id : String
  title : String
  content : String
  document_type : String
  tags : List String
  doc_metadata : List (String × String)
  embedding_id : String
  created_at : Nat
  updated_at : Nat
deriving Repr, DecidableEq

/-- The pydantic `Document` model returned by the managers. -/
structure Document where
  document_id : String
  user_id : String
  title : String
  content : String
  document_type : String
  tags : List String
  metadata : List (String × String)
  embedding_id : String
  created_at : Nat
  updated_at : Nat
deriving Repr, DecidableEq

/-- The field-by-field `Document(...)` construction the document manager
performs from a database row. -/
def docOfModel (d : DocumentModel) : Document :=
  ⟨d.document_id, d.user_id, d.title, d.content, d.document_type, d.tags,
    d.doc_metadata, d.embedding_id, d.created_at, d.updated_at⟩

/-- The pydantic `DocumentCreate` payload. -/
structure DocumentCreate where
  title : String
  content : String
  document_type : String
  tags : List String
  metadata : List (String × String)
deriving Repr, DecidableEq

/-! ## Metadata store client (`infrastructure/database/client.py`)

The store is the list of rows in row order; each client method of
`DatabaseClient` becomes a pure function of that list. -/

/-- `DatabaseClient.create_document`: `session.add` + commit appends a row. -/
def dbCreateDocument (db : List DocumentModel) (d : DocumentModel) :
    List DocumentModel :=
  db ++ [d]

/-- The row predicate of `DatabaseClient.get_document`/`delete_document`:
`document_id == ... AND user_id == ...`. -/
def rowMatches (docId uid : String) (d : DocumentModel) : Bool :=
  d.document_id = docId && d.user_id = uid

/-- `DatabaseClient.get_document`: select scoped to id and owner,
`scalar_one_or_none` (the primary key makes the match unique). -/
def dbGetDocument (db : List DocumentModel) (docId uid : String) :
    Option DocumentModel :=
  db.find? (rowMatches docId uid)

/-- The `WHERE` clause of `DatabaseClient.list_documents`: owner scope plus
the optional type filter, with Python truthiness (`if document_type:` skips
the filter for `None` and for `""`). -/
def docMatches (uid : String) (dtype : Option String) (d : DocumentModel) :
    Bool :=
  d.user_id = uid &&
    (match dtype with
     | none => true
     | some t => if t = "" then true else d.document_type = t)

/-- `DatabaseClient.list_documents`: the count query sees the full matching
set; the page is `OFFSET offset LIMIT limit` over it. -/
def dbListDocuments (db : List DocumentModel) (uid : String)
    (limit offset : Nat) (dtype : Option String) :
    List DocumentModel × Nat :=
  let filtered := db.filter (docMatches uid dtype)
  ((filtered.drop offset).take limit, filtered.length)

/-- `DatabaseClient.delete_document`: SQL `DELETE` of every matching row;
the returned flag is `rowcount > 0`. -/
def dbDeleteDocument (db : List DocumentModel) (docId uid : String) :
    List DocumentModel × Bool :=
  (db.filter (fun d => !(rowMatches docId uid d)),
   db.any (rowMatches docId uid))

/-! ## Vector store records and provider result formatting -/

/-- The filterable attributes `document_manager.py` mirrors into vector
metadata (`document_id`, `user_id`, `title`, `document_type`, and the
comma-joined `tags` string). -/
structure VecMeta where
  document_id : String
  user_id : String
  title : String
  document_type : String
  tags : String
deriving Repr, DecidableEq

/-- One stored vector-index entry (`{id, values, content, metadata}`). -/
structure VecRecord where
  id : String
  values : List ℚ
  content : String
  metadata : VecMeta
deriving Repr, DecidableEq

/-- Upsert of one record: overwrite by id when present, append otherwise. -/
def upsertOne (store : List VecRecord) (v : VecRecord) : List VecRecord :=
  if store.any (fun r => r.id = v.id) then
    store.map (fun r => if r.id = v.id then v else r)
  else
    store ++ [v]

/-- `upsert_vectors` over a batch. -/
def upsertVectors (store : List VecRecord) (vs : List VecRecord) :
    List VecRecord :=
  vs.foldl upsertOne store

/-- `delete_vectors`: remove every record whose id is listed. -/
def deleteVectors (store : List VecRecord) (ids : List String) :
    List VecRecord :=
  store.filter (fun r => !(ids.contains r.id))

/-- The `SearchResult` pydantic model of `vectordb/provider.py`. -/
structure SearchResult where
  id : String
  score : ℚ
  content : String
  metadata : VecMeta
deriving Repr, DecidableEq

/-- One raw hit as the embedded ChromaDB backend reports it: id, stored
document text, stored metadata, and an L2 distance. -/
structure ChromaHit where
  id : String
  document : String
  metadata : VecMeta
  distance : ℚ
deriving Repr, DecidableEq

/-- The result-formatting loop of `ChromaLocalProvider.search`: each raw
distance is converted by `max(0.0, min(1.0, 1.0 - distance / 2.0))`. -/
def chromaSearchResults (hits : List ChromaHit) : List SearchResult :=
  hits.map (fun h =>
    ⟨h.id, max 0 (min 1 (1 - h.distance / 2)), h.document, h.metadata⟩)

/-- One raw match as the Pinecone backend reports it: id, cosine score,
and metadata (from which the provider pops the stored content). -/
structure PineconeMatch where
  id : String
  score : ℚ
  content : String
  metadata : VecMeta
deriving Repr, DecidableEq

/-- The result-formatting loop of `PineconeProvider.search`: the backend
score is passed through unmodified (`score=match.score`), with no
normalization or clamping. -/
def pineconeSearchResults (ms : List PineconeMatch) :
    List SearchResult :=
  ms.map (fun m => ⟨m.id, m.score, m.content, m.metadata⟩)

/-- Decidable form of "every returned score lies in [0, 1]". -/
def scoresWithinUnit (rs : List SearchResult) : Prop :=
  ∀ r ∈ rs, 0 ≤ r.score ∧ r.score ≤ 1

instance (rs : List SearchResult) : Decidable (scoresWithinUnit rs) :=
  List.decidableBAll _ rs

/-! ## Job manager (`core/job_manager.py`) -/

/-- A `Job`. `progress` is the optional percentage; `result` the optional
payload (modelled as key/value pairs); `error` the optional message. -/
structure Job where
  job_id : String
  job_type : String
  status : String
  created_at : Nat
  updated_at : Nat
  progress : Option ℚ
  result : Option (List (String × String))
  error : Option String
deriving Repr, DecidableEq

/-- `Job.__init__`: status starts at `"pending"`; `created_at` and
`updated_at` are two successive clock readings. -/
def Job.mkNew (job_id job_type : String) (t1 t2 : Nat) : Job :=
  ⟨job_id, job_type, "pending", t1, t2, none, none, none⟩

/-- `Job.update_status`: sets `status` unconditionally, stamps
`updated_at`, and overwrites each optional field only when a value is
passed (`if progress is not None: ...`). -/
def Job.updateStatus (j : Job) (status : String) (progress : Option ℚ)
    (result : Option (List (String × String))) (error : Option String)
    (now : Nat) : Job :=
  { j with
    status := status
    updated_at := now
    progress := match progress with | some p => some p | none => j.progress
    result := match result with | some r => some r | none => j.result
    error := match error with | some e => some e | none => j.error }

/-- `JobManager.update_job`: look the job up by id and mutate it in place;
a missing id is a logged no-op. -/
def jmUpdateJob (jobs : List (String × Job)) (jobId status : String)
    (progress : Option ℚ) (result : Option (List (String × String)))
    (error : Option String) (now : Nat) : List (String × Job) :=
  jobs.map (fun p =>
    if p.1 = jobId then
      (p.1, p.2.updateStatus status progress result error now)
    else p)

/-! ## Document manager (`core/document_manager.py`)

The two stores travel together as a `KSState`; the embedding model is an
explicit function parameter. A vector-backend failure during create is an
explicit boolean injection: on failure the exception propagates out of
`create_document` (so no `Document` is returned), but the metadata write
that already committed is not rolled back. -/

/-- The pair of stores the document manager writes. -/
structure KSState where
  db : List DocumentModel
  vec : List VecRecord
deriving Repr, DecidableEq

/-- `DocumentManager.create_document`, with the generated `document_id`
and the two `datetime.now(timezone.utc)` readings passed in explicitly.
`vecOk` injects the outcome of the vector upsert: when it is `false` the
upsert raises, the function's `Document` result is never produced, and the
vector store is unchanged — but the metadata row stays committed. -/
def createDocument (embed : String → List ℚ) (st : KSState) (uid : String)
    (dd : DocumentCreate) (docId : String) (t1 t2 : Nat) (vecOk : Bool) :
    KSState × Option Document :=
  let embeddingId := "emb_" ++ docId
  let emb := embed (dd.title ++ "\n\n" ++ dd.content)
  let dbDoc : DocumentModel :=
    ⟨docId, uid, dd.title, dd.content, dd.document_type, dd.tags,
      dd.metadata, embeddingId, t1, t2⟩
  let db' := dbCreateDocument st.db dbDoc
  if vecOk then
    let vmeta : VecMeta :=
      ⟨docId, uid, dd.title, dd.document_type, joinTags dd.tags⟩
    let vec' := upsertVectors st.vec [⟨embeddingId, emb, dd.content, vmeta⟩]
    (⟨db', vec'⟩, some (docOfModel dbDoc))
  else
    (⟨db', st.vec⟩, none)

/-- `DocumentManager.get_document`: owner-scoped metadata lookup mapped
through the `Document` model; `none` is the NotFound outcome. -/
def getDocument (db : List DocumentModel) (docId uid : String) :
    Option Document :=
  (dbGetDocument db docId uid).map docOfModel

/-- `DocumentManager.delete_document`: fetch to discover `embedding_id`
(absent id returns `false` untouched), delete the vector entry first, then
the metadata row. -/
def deleteDocument (st : KSState) (docId uid : String) : KSState × Bool :=
  match dbGetDocument st.db docId uid with
  | none => (st, false)
  | some doc =>
      let vec' := deleteVectors st.vec [doc.embedding_id]
      let del := dbDeleteDocument st.db docId uid
      (⟨del.1, vec'⟩, del.2)

/-- `DocumentManager.list_documents`: delegate to the store client and map
rows through the `Document` model. -/
def listDocuments (db : List DocumentModel) (uid : String)
    (limit offset : Nat) (dtype : Option String) : List Document × Nat :=
  let res := dbListDocuments db uid limit offset dtype
  (res.1.map docOfModel, res.2)

/-! ## Search manager (`core/search_manager.py`) -/

/-- The owner/type filter `search_manager.py` sends to the vector backend
(`{"user_id": ...}`, plus `document_type` when truthy). -/
structure WhereFilter where
  user_id : String
  document_type : Option String
deriving Repr, DecidableEq

/-- The type of the abstracted vector-backend query: query vector,
requested top-k, metadata filter, giving a ranked hit list. -/
def VSearch : Type :=
  List ℚ → Nat → WhereFilter → List SearchResult

/-- A model of the external backend's query over the stored records: the
ranking is abstracted, but every hit is a stored record that matches the
filter, truncated to the requested top-k. This is the one fact about the
external ChromaDB/Pinecone query engines the proofs rely on. -/
def backendSearch (store : List VecRecord) : VSearch :=
  fun _ limit f =>
    ((store.filter (fun r =>
        r.metadata.user_id = f.user_id &&
          (match f.document_type with
           | none => true
           | some t => r.metadata.document_type = t))).map
      (fun r => ⟨r.id, 0, r.content, r.metadata⟩)).take limit

/-- One formatted search result (the `SearchResultItem` pydantic model). -/
structure SearchResultItem where
  document_id : String
  title : String
  document_type : String
  tags : List String
  score : ℚ
  snippet : String
deriving Repr, DecidableEq

/-- The per-hit formatting of `search_manager.py` (identical in `search`
and `find_similar`): ids/title/type/tags from vector metadata, the
provider score, and the 200-character snippet. -/
def formatResult (r : SearchResult) : SearchResultItem :=
  ⟨r.metadata.document_id, r.metadata.title, r.metadata.document_type,
    parseTags r.metadata.tags, r.score, snippetOf r.content⟩

/-- `SearchManager.search`: embed the query, over-fetch `limit * 2` under
the owner(+type) filter, client-side tag filtering (`if tags:` — skipped
for `None` and for `[]`), truncate to `limit`, format. -/
def smSearch (embed : String → List ℚ) (vsearch : VSearch)
    (query uid : String) (limit : Nat) (dtype : Option String)
    (tags : Option (List String)) : List SearchResultItem :=
  let qemb := embed query
  let wf : WhereFilter :=
    ⟨uid,
      match dtype with
      | none => none
      | some t => if t = "" then none else some t⟩
  let vr := vsearch qemb (limit * 2) wf
  let vr2 :=
    match tags with
    | none => vr
    | some ts =>
        if ts.isEmpty then vr
        else
          vr.filter (fun r =>
            ts.any (fun t => (parseTags r.metadata.tags).contains t))
  (vr2.take limit).map formatResult

/-- `SearchManager.find_similar`: fetch the source document (absent id
gives `[]`), embed `title + "\n\n" + content`, query the backend for
`limit + 1` neighbors under the owner filter, drop every hit whose
`document_id` equals the source id, format, return up to `limit`. -/
def findSimilar (embed : String → List ℚ) (vsearch : VSearch)
    (db : List DocumentModel) (docId uid : String) (limit : Nat) :
    List SearchResultItem :=
  match dbGetDocument db docId uid with
  | none => []
  | some doc =>
      let qemb := embed (doc.title ++ "\n\n" ++ doc.content)
      let vr := vsearch qemb (limit + 1) ⟨uid, none⟩
      ((vr.filter (fun r => !(r.metadata.document_id = docId))).map
        formatResult).take limit

/-! ## Unified search endpoint (`api/routes/knowledge_endpoints.py`) -/

/-- The state behind the module-global `search_manager` instance: its
embedding model and its vector backend. -/
structure SMEnv where
  embed : String → List ℚ
  vsearch : VSearch

/-- The module-global managers the endpoint dereferences. `none` models a
global that `main.py` has not set. The document manager is represented by
the metadata rows the keyword mode scans. -/
structure HandlerEnv where
  searchManager : Option SMEnv
  docManagerDb : Option (List DocumentModel)

/-- The keyword branch of `search_documents`: scan up to 1000 owner-scoped
rows, case-insensitive substring match on title/content (an empty content
string is falsy and short-circuits), optional tag intersection, client-side
pagination, fixed score 1.0 and an unsuffixed 200-character snippet. -/
def keywordResults (db : List DocumentModel) (q uid : String)
    (limit offset : Nat) (dtype : Option String)
    (tags : Option (List String)) : List SearchResultItem :=
  let allDocs := (dbListDocuments db uid 1000 0 dtype).1
  let ql := pyLower q
  let filtered := allDocs.filter (fun d =>
    containsSub ql.data (pyLower d.title).data ||
      (d.content ≠ "" && containsSub ql.data (pyLower d.content).data))
  let filtered2 :=
    match tags with
    | none => filtered
    | some ts =>
        if ts.isEmpty then filtered
        else filtered.filter (fun d => ts.any (fun t => d.tags.contains t))
  let paginated := (filtered2.drop offset).take limit
  paginated.map (fun d =>
    ⟨d.document_id, d.title,
      (if d.document_type = "" then "unknown" else d.document_type),
      d.tags, 1,
      (if d.content = "" then "" else pySlice d.content 200)⟩)

/-- The result computation of the `search_documents` endpoint:
the 1000-character check on the stripped query first (HTTP 422), then the
mode dispatch. A `none` search manager yields `[]` in semantic mode but an
unhandled `AttributeError` (HTTP 500) in hybrid mode, which does not guard
it; an unknown mode is HTTP 400. Errors are `Except.error` status codes. -/
def searchDocumentsResult (env : HandlerEnv) (qRaw mode : String)
    (limit offset : Nat) (dtype : Option String)
    (tags : Option (List String)) (uid : String) :
    Except Nat (List SearchResultItem) :=
  if (pyStrip qRaw).length > 1000 then Except.error 422
  else
    let q := pyStrip qRaw
    if mode = "semantic" then
      match env.searchManager with
      | none => Except.ok []
      | some sm => Except.ok (smSearch sm.embed sm.vsearch q uid limit dtype tags)
    else if mode = "keyword" then
      match env.docManagerDb with
      | none => Except.ok []
      | some db => Except.ok (keywordResults db q uid limit offset dtype tags)
    else if mode = "hybrid" then
      match env.searchManager with
      | none => Except.error 500
      | some sm => Except.ok (smSearch sm.embed sm.vsearch q uid limit dtype tags)
    else Except.error 400

/-- One analytics record as `AnalyticsManager.track_search` stores it
(query, result count, requester, mode; timing dropped). -/
structure SearchEvent where
  query : String
  result_count : Nat
  user_id : String
  search_mode : String
deriving Repr, DecidableEq

/-- The analytics events the endpoint records during one call:
`track_search` runs only after a mode completed without raising, so an
erroring request records nothing. -/
def searchDocumentsEvents (env : HandlerEnv) (qRaw mode : String)
    (limit offset : Nat) (dtype : Option String)
    (tags : Option (List String)) (uid : String) : List SearchEvent :=
  match searchDocumentsResult env qRaw mode limit offset dtype tags uid with
  | Except.ok rs => [⟨pyStrip qRaw, rs.length, uid, mode⟩]
  | Except.error _ => []

/-! ## Concrete fixtures used by witnesses and counterexamples -/

/-- A fixed vector-metadata value for concrete instances. -/
def vm0 : VecMeta := ⟨"d0", "u0", "T", "guide", ""⟩

/-- A raw Pinecone match whose cosine score is negative, as the cosine
metric can legitimately report for dissimilar vectors. -/
def pcNegative : PineconeMatch := ⟨"p", -(1/2), "c", vm0⟩

/-! ## Helper lemmas -/

/-- The Chroma score conversion `max 0 (min 1 (1 - d / 2))` is antitone in
the distance. -/
lemma clamp_score_antitone {d1 d2 : ℚ} (h : d1 ≤ d2) :
    max 0 (min 1 (1 - d2 / 2)) ≤ max 0 (min 1 (1 - d1 / 2)) := by
  have h1 : 1 - d2 / 2 ≤ 1 - d1 / 2 := by linarith
  exact max_le_max le_rfl (min_le_min le_rfl h1)

/-! ## C1 -/

/-- C1 (amended): the Chroma provider clamps every converted score into
[0, 1], and its result scores are non-increasing whenever the backend
reports distances in non-decreasing order; the Pinecone provider returns
the backend's scores unchanged, so its scores are exactly the backend's
(in particular they lie in [0, 1], sorted, only when the backend's already
do). -/
theorem provider_search_score_spec (hits : List ChromaHit)
    (ms : List PineconeMatch)
    (hdist : (hits.map ChromaHit.distance).Chain' (· ≤ ·)) :
    scoresWithinUnit (chromaSearchResults hits)
    ∧ ((chromaSearchResults hits).map SearchResult.score).Chain'
        (fun a b => b ≤ a)
    ∧ (pineconeSearchResults ms).map SearchResult.score
        = ms.map PineconeMatch.score := by
  refine ⟨?_, ?_, ?_⟩
  · intro r hr
    simp only [chromaSearchResults, List.mem_map] at hr
    obtain ⟨h, hh, rfl⟩ := hr
    exact ⟨le_max_left 0 _, max_le zero_le_one (min_le_left 1 _)⟩
  · have hmap : (chromaSearchResults hits).map SearchResult.score
        = hits.map (fun h => max 0 (min 1 (1 - h.distance / 2))) := by
      simp [chromaSearchResults, List.map_map, Function.comp]
    rw [hmap, List.chain'_map]
    rw [List.chain'_map] at hdist
    exact hdist.imp (fun a b hab => clamp_score_antitone hab)
  · simp [pineconeSearchResults, List.map_map, Function.comp]

/-- Witness for `provider_search_score_spec` at concrete hit lists. -/
theorem provider_search_score_spec_witness :
    scoresWithinUnit
        (chromaSearchResults [⟨"a", "ca", vm0, 0⟩, ⟨"b", "cb", vm0, 1⟩])
    ∧ ((chromaSearchResults
          [⟨"a", "ca", vm0, 0⟩, ⟨"b", "cb", vm0, 1⟩]).map
        SearchResult.score).Chain' (fun a b => b ≤ a)
    ∧ (pineconeSearchResults [⟨"p", 1/2, "cp", vm0⟩]).map SearchResult.score
        = [(⟨"p", 1/2, "cp", vm0⟩ : PineconeMatch)].map PineconeMatch.score :=
  provider_search_score_spec [⟨"a", "ca", vm0, 0⟩, ⟨"b", "cb", vm0, 1⟩]
    [⟨"p", 1/2, "cp", vm0⟩]
    (by simp only [List.map_cons, List.map_nil, List.chain'_cons,
          List.chain'_singleton, and_true]; norm_num)

/-- C1 counterexample: the Pinecone provider passes a negative backend
cosine score straight through, so the returned score list leaves [0, 1]. -/
theorem pinecone_score_out_of_range :
    ¬ scoresWithinUnit (pineconeSearchResults [pcNegative]) := by
  intro h
  have hmem : (⟨"p", -(1/2), "c", vm0⟩ : SearchResult)
      ∈ pineconeSearchResults [pcNegative] := by
    simp [pineconeSearchResults, pcNegative]
  have h1 := h _ hmem
  norm_num at h1

/-! ## C2 -/

/-- C2 (amended): `Job.update_status` sets the status field to its
argument unconditionally; nothing guards terminal states, so an update on
a completed or failed job overwrites its status. -/
theorem job_update_status_unconditional (j : Job) (s : String)
    (p : Option ℚ) (r : Option (List (String × String)))
    (e : Option String) (now : Nat) :
    (j.updateStatus s p r e now).status = s := rfl

/-- C2 counterexample: a job driven to the terminal status `"completed"`
and then updated to `"processing"` leaves the terminal state. -/
theorem job_terminal_status_overwritten :
    ((Job.mkNew "j1" "bulk_delete" 0 0).updateStatus "completed"
        (some 100) none none 1).status = "completed"
    ∧ (((Job.mkNew "j1" "bulk_delete" 0 0).updateStatus "completed"
          (some 100) none none 1).updateStatus "processing"
        (some 50) none none 2).status ≠ "completed" := by
  constructor
  · rfl
  · decide

/-- A fresh id matches no existing row, so `find?` over the old rows gives
nothing. -/
lemma find?_none_of_fresh {db : List DocumentModel} {docId uid : String}
    (hfresh : ∀ d ∈ db, rowMatches docId uid d = false) :
    db.find? (rowMatches docId uid) = none :=
  List.find?_eq_none.mpr (fun x hx => by simp [hfresh x hx])

/-- The freshly created row satisfies its own lookup predicate. -/
lemma rowMatches_self (docId uid : String) (dd : DocumentCreate)
    (t1 t2 : Nat) :
    rowMatches docId uid
      ⟨docId, uid, dd.title, dd.content, dd.document_type, dd.tags,
        dd.metadata, "emb_" ++ docId, t1, t2⟩ = true := by
  simp [rowMatches]

/-- Every hit of the abstracted backend query carries the metadata of some
stored record. -/
lemma mem_backendSearch {store : List VecRecord} {qv : List ℚ}
    {limit : Nat} {f : WhereFilter} {r : SearchResult}
    (hr : r ∈ backendSearch store qv limit f) :
    ∃ rec ∈ store, r.metadata = rec.metadata := by
  have hr' := List.mem_of_mem_take hr
  simp only [List.mem_map, List.mem_filter] at hr'
  obtain ⟨rec, ⟨hrec, _⟩, rfl⟩ := hr'
  exact ⟨rec, hrec, rfl⟩

/-- Every formatted result of `SearchManager.search` comes from some hit
of the single backend query it makes (at top-k `limit * 2`). -/
lemma mem_smSearch {embed : String → List ℚ} {vsearch : VSearch}
    {query uid : String} {limit : Nat} {dtype : Option String}
    {tags : Option (List String)} {item : SearchResultItem}
    (hit : item ∈ smSearch embed vsearch query uid limit dtype tags) :
    ∃ r ∈ vsearch (embed query) (limit * 2)
        ⟨uid,
          match dtype with
          | none => none
          | some t => if t = "" then none else some t⟩,
      item = formatResult r := by
  simp only [smSearch, List.mem_map] at hit
  obtain ⟨r, hr, rfl⟩ := hit
  have hr2 := List.mem_of_mem_take hr
  cases tags with
  | none => exact ⟨r, hr2, rfl⟩
  | some ts =>
      by_cases hts : ts.isEmpty
      · simp only [hts, if_true] at hr2
        exact ⟨r, hr2, rfl⟩
      · simp only [hts, if_false] at hr2
        exact ⟨r, (List.mem_filter.mp hr2).1, rfl⟩

/-! ## C3 -/

/-- C3 (amended): creating a document and fetching it by id with the same
owner returns exactly the created document, field for field; its
`created_at` and `updated_at` stem from two successive clock readings, so
`created_at ≤ updated_at` — they are equal only when the two readings
coincide. -/
theorem create_then_get_roundtrip (embed : String → List ℚ) (st : KSState)
    (uid : String) (dd : DocumentCreate) (docId : String) (t1 t2 : Nat)
    (hfresh : ∀ d ∈ st.db, rowMatches docId uid d = false)
    (hclock : t1 ≤ t2) :
    ∃ doc : Document,
      (createDocument embed st uid dd docId t1 t2 true).2 = some doc
      ∧ getDocument (createDocument embed st uid dd docId t1 t2 true).1.db
          docId uid = some doc
      ∧ doc.created_at ≤ doc.updated_at := by
  refine ⟨docOfModel
    ⟨docId, uid, dd.title, dd.content, dd.document_type, dd.tags,
      dd.metadata, "emb_" ++ docId, t1, t2⟩, rfl, ?_, hclock⟩
  have hdb : (createDocument embed st uid dd docId t1 t2 true).1.db
      = st.db ++
        [⟨docId, uid, dd.title, dd.content, dd.document_type, dd.tags,
          dd.metadata, "emb_" ++ docId, t1, t2⟩] := rfl
  rw [hdb]
  simp only [getDocument, dbGetDocument, List.find?_append,
    find?_none_of_fresh hfresh, Option.none_or]
  simp [List.find?_cons, rowMatches_self]

/-- Witness for `create_then_get_roundtrip` on an empty store with both
clock readings at 0. -/
theorem create_then_get_roundtrip_witness :
    ∃ doc : Document,
      (createDocument (fun _ => ([] : List ℚ)) ⟨[], []⟩ "u1"
          ⟨"A", "B", "guide", ["x"], []⟩ "d1" 0 0 true).2 = some doc
      ∧ getDocument
          (createDocument (fun _ => ([] : List ℚ)) ⟨[], []⟩ "u1"
              ⟨"A", "B", "guide", ["x"], []⟩ "d1" 0 0 true).1.db
          "d1" "u1" = some doc
      ∧ doc.created_at ≤ doc.updated_at :=
  create_then_get_roundtrip (fun _ => []) ⟨[], []⟩ "u1"
    ⟨"A", "B", "guide", ["x"], []⟩ "d1" 0 0
    (by intro d hd; simp at hd) (Nat.le_refl 0)

/-- C3 counterexample: with the clock advancing one tick between the two
`datetime.now` readings of `create_document`, the fetched document has
`created_at = 0` but `updated_at = 1`, so `created_at == updated_at` fails
immediately after creation. -/
theorem create_timestamps_differ :
    (getDocument
        (createDocument (fun _ => ([] : List ℚ)) ⟨[], []⟩ "u1"
            ⟨"A", "B", "guide", ["x"], []⟩ "d1" 0 1 true).1.db
        "d1" "u1").map (fun d => (d.created_at, d.updated_at))
      = some (0, 1)
    ∧ (0 : Nat) ≠ 1 := by
  constructor
  · rfl
  · decide

/-! ## C4 -/

/-- C4: `create_document` commits the metadata row before the vector
upsert; when the vector upsert fails, no `Document` is returned, but the
document is still found by `get_document` and appears in
`list_documents`, while no semantic search result can carry its id — the
vector store was never written, and search results only draw on stored
vector records. -/
theorem create_vector_failure_keeps_metadata
    (embed : String → List ℚ) (st : KSState) (uid : String)
    (dd : DocumentCreate) (docId : String) (t1 t2 : Nat)
    (hfreshDb : ∀ d ∈ st.db, rowMatches docId uid d = false)
    (hfreshVec : ∀ rec ∈ st.vec, rec.metadata.document_id ≠ docId) :
    (createDocument embed st uid dd docId t1 t2 false).2 = none
    ∧ (∃ doc, getDocument
          (createDocument embed st uid dd docId t1 t2 false).1.db docId uid
          = some doc)
    ∧ docId ∈ (listDocuments
          (createDocument embed st uid dd docId t1 t2 false).1.db uid
          ((createDocument embed st uid dd docId t1 t2 false).1.db.length)
          0 none).1.map Document.document_id
    ∧ ∀ (query : String) (lim : Nat) (dtype : Option String)
        (tgs : Option (List String)),
        ∀ item ∈ smSearch embed
            (backendSearch
              (createDocument embed st uid dd docId t1 t2 false).1.vec)
            query uid lim dtype tgs,
          item.document_id ≠ docId := by
  have hdb : (createDocument embed st uid dd docId t1 t2 false).1.db
      = st.db ++
        [⟨docId, uid, dd.title, dd.content, dd.document_type, dd.tags,
          dd.metadata, "emb_" ++ docId, t1, t2⟩] := rfl
  have hvec : (createDocument embed st uid dd docId t1 t2 false).1.vec
      = st.vec := rfl
  refine ⟨rfl, ?_, ?_, ?_⟩
  · refine ⟨docOfModel
      ⟨docId, uid, dd.title, dd.content, dd.document_type, dd.tags,
        dd.metadata, "emb_" ++ docId, t1, t2⟩, ?_⟩
    rw [hdb]
    simp only [getDocument, dbGetDocument, List.find?_append,
      find?_none_of_fresh hfreshDb, Option.none_or]
    simp [List.find?_cons, rowMatches_self]
  · rw [hdb]
    simp only [listDocuments, dbListDocuments, List.drop_zero]
    rw [List.take_of_length_le (List.length_filter_le _ _)]
    refine List.mem_map.mpr ⟨docOfModel
      ⟨docId, uid, dd.title, dd.content, dd.document_type, dd.tags,
        dd.metadata, "emb_" ++ docId, t1, t2⟩, ?_, rfl⟩
    refine List.mem_map.mpr ⟨_, ?_, rfl⟩
    refine List.mem_filter.mpr ⟨List.mem_append_right _ (List.mem_singleton.mpr rfl), ?_⟩
    simp [docMatches]
  · intro query lim dtype tgs item hitem
    obtain ⟨r, hr, rfl⟩ := mem_smSearch hitem
    rw [hvec] at hr
    obtain ⟨rec, hrec, hmeta⟩ := mem_backendSearch hr
    have : (formatResult r).document_id = rec.metadata.document_id := by
      simp [formatResult, hmeta]
    rw [this]
    exact hfreshVec rec hrec

/-- Witness for `create_vector_failure_keeps_metadata` on an empty pair of
stores. -/
theorem create_vector_failure_keeps_metadata_witness :
    (createDocument (fun _ => ([] : List ℚ)) ⟨[], []⟩ "u1"
        ⟨"A", "B", "guide", ["x"], []⟩ "d1" 0 0 false).2 = none
    ∧ (∃ doc, getDocument
          (createDocument (fun _ => ([] : List ℚ)) ⟨[], []⟩ "u1"
              ⟨"A", "B", "guide", ["x"], []⟩ "d1" 0 0 false).1.db "d1" "u1"
          = some doc)
    ∧ "d1" ∈ (listDocuments
          (createDocument (fun _ => ([] : List ℚ)) ⟨[], []⟩ "u1"
              ⟨"A", "B", "guide", ["x"], []⟩ "d1" 0 0 false).1.db "u1"
          ((createDocument (fun _ => ([] : List ℚ)) ⟨[], []⟩ "u1"
              ⟨"A", "B", "guide", ["x"], []⟩ "d1" 0 0 false).1.db.length)
          0 none).1.map Document.document_id
    ∧ ∀ (query : String) (lim : Nat) (dtype : Option String)
        (tgs : Option (List String)),
        ∀ item ∈ smSearch (fun _ => ([] : List ℚ))
            (backendSearch
              (createDocument (fun _ => ([] : List ℚ)) ⟨[], []⟩ "u1"
                  ⟨"A", "B", "guide", ["x"], []⟩ "d1" 0 0 false).1.vec)
            query "u1" lim dtype tgs,
          item.document_id ≠ "d1" :=
  create_vector_failure_keeps_metadata (fun _ => []) ⟨[], []⟩ "u1"
    ⟨"A", "B", "guide", ["x"], []⟩ "d1" 0 0
    (by intro d hd; simp at hd) (by intro rec hrec; simp at hrec)

/-! ## C5 -/

/-- C5: with the search manager initialized (as `main.py` does at
startup), the hybrid branch of the unified search endpoint calls
`search_manager.search` with exactly the arguments of the semantic branch,
so both modes produce identical result lists on every input — hybrid is a
fallback alias of semantic, not a blended ranking. -/
theorem hybrid_mode_aliases_semantic (env : HandlerEnv) (sm : SMEnv)
    (hinit : env.searchManager = some sm) (q : String)
    (limit offset : Nat) (dtype : Option String)
    (tags : Option (List String)) (uid : String) :
    searchDocumentsResult env q "hybrid" limit offset dtype tags uid
      = searchDocumentsResult env q "semantic" limit offset dtype tags uid := by
  by_cases hlen : (pyStrip q).length > 1000
  · simp [searchDocumentsResult, hlen]
  · simp [searchDocumentsResult, hlen, hinit]

/-- Witness for `hybrid_mode_aliases_semantic` at a concrete environment
and request. -/
theorem hybrid_mode_aliases_semantic_witness :
    searchDocumentsResult
        ⟨some ⟨fun _ => [], fun _ _ _ => []⟩, none⟩ "q" "hybrid" 10 0 none
        none "u1"
      = searchDocumentsResult
        ⟨some ⟨fun _ => [], fun _ _ _ => []⟩, none⟩ "q" "semantic" 10 0 none
        none "u1" :=
  hybrid_mode_aliases_semantic ⟨some ⟨fun _ => [], fun _ _ _ => []⟩, none⟩
    ⟨fun _ => [], fun _ _ _ => []⟩ rfl "q" 10 0 none none "u1"

/-! ## C10 -/

/-- C10: a request whose stripped query exceeds 1000 characters is
rejected with HTTP 422 — whatever the mode and whatever the managers, so
before any search mode executes — and records no analytics event. -/
theorem long_query_rejected_422_no_analytics (env : HandlerEnv)
    (qRaw mode : String) (limit offset : Nat) (dtype : Option String)
    (tags : Option (List String)) (uid : String)
    (hlen : (pyStrip qRaw).length > 1000) :
    searchDocumentsResult env qRaw mode limit offset dtype tags uid
        = Except.error 422
    ∧ searchDocumentsEvents env qRaw mode limit offset dtype tags uid
        = [] := by
  constructor
  · simp [searchDocumentsResult, hlen]
  · simp [searchDocumentsEvents, searchDocumentsResult, hlen]

set_option maxRecDepth 10000 in
/-- Witness for `long_query_rejected_422_no_analytics`: a 1001-character
query with no surrounding whitespace. -/
theorem long_query_rejected_422_no_analytics_witness :
    searchDocumentsResult ⟨none, none⟩
        (String.mk (List.replicate 1001 'a')) "semantic" 10 0 none none
        "u1" = Except.error 422
    ∧ searchDocumentsEvents ⟨none, none⟩
        (String.mk (List.replicate 1001 'a')) "semantic" 10 0 none none
        "u1" = [] :=
  long_query_rejected_422_no_analytics ⟨none, none⟩
    (String.mk (List.replicate 1001 'a')) "semantic" 10 0 none none "u1"
    (by decide)

/-- Deleting an id the scoped lookup cannot find returns `false`. -/
lemma delete_absent_returns_false (st : KSState) (docId uid : String)
    (h : dbGetDocument st.db docId uid = none) :
    (deleteDocument st docId uid).2 = false := by
  simp [deleteDocument, h]

/-- After the SQL delete removed every row matching (id, owner), the
scoped lookup finds nothing. -/
lemma dbGet_after_delete (db : List DocumentModel) (docId uid : String) :
    dbGetDocument (dbDeleteDocument db docId uid).1 docId uid = none := by
  simp only [dbGetDocument, dbDeleteDocument]
  refine List.find?_eq_none.mpr ?_
  intro x hx
  have hkeep := (List.mem_filter.mp hx).2
  intro hmatch
  rw [hmatch] at hkeep
  simp at hkeep

/-! ## C6 -/

/-- C6: after `delete_document(id, owner)` — whether or not the id existed
— a `get_document(id, owner)` returns NotFound, and a second
`delete_document(id, owner)` returns `false` without raising: deletion is
idempotent on absent ids. -/
theorem delete_then_get_notfound_and_idempotent (st : KSState)
    (docId uid : String) :
    getDocument (deleteDocument st docId uid).1.db docId uid = none
    ∧ (deleteDocument (deleteDocument st docId uid).1 docId uid).2
        = false := by
  have hget : dbGetDocument (deleteDocument st docId uid).1.db docId uid
      = none := by
    rcases hfind : dbGetDocument st.db docId uid with _ | doc
    · simp [deleteDocument, hfind]
    · simp only [deleteDocument, hfind]
      exact dbGet_after_delete st.db docId uid
  constructor
  · simp [getDocument, hget]
  · exact delete_absent_returns_false _ docId uid hget

/-! ## C7 -/

/-- C7: `get_document(id, owner)` yields the very same NotFound outcome
(`none`) both when no row carries the id at all and when every row with
the id belongs to a different owner — the caller cannot tell the two
apart. -/
theorem get_notfound_indistinguishable (db : List DocumentModel)
    (docId uid : String) :
    ((∀ d ∈ db, d.document_id ≠ docId) →
        getDocument db docId uid = none)
    ∧ ((∀ d ∈ db, d.document_id = docId → d.user_id ≠ uid) →
        getDocument db docId uid = none) := by
  constructor
  · intro habsent
    have hfind : db.find? (rowMatches docId uid) = none := by
      refine List.find?_eq_none.mpr ?_
      intro x hx hmatch
      simp only [rowMatches, Bool.and_eq_true, decide_eq_true_eq] at hmatch
      exact habsent x hx hmatch.1
    simp [getDocument, dbGetDocument, hfind]
  · intro hother
    have hfind : db.find? (rowMatches docId uid) = none := by
      refine List.find?_eq_none.mpr ?_
      intro x hx hmatch
      simp only [rowMatches, Bool.and_eq_true, decide_eq_true_eq] at hmatch
      exact hother x hx hmatch.1 hmatch.2
    simp [getDocument, dbGetDocument, hfind]

/-- A row owned by someone other than the requester. -/
def otherOwnerRow : DocumentModel :=
  ⟨"d1", "u2", "T", "C", "guide", [], [], "emb_d1", 0, 0⟩

/-- Witness for `get_notfound_indistinguishable`: the id-absent case on an
empty store and the owner-mismatch case on a store holding `"d1"` for a
different owner both yield `none`. -/
theorem get_notfound_indistinguishable_witness :
    getDocument [] "d1" "u1" = none
    ∧ getDocument [otherOwnerRow] "d1" "u1" = none :=
  ⟨(get_notfound_indistinguishable [] "d1" "u1").1
      (by intro d hd; simp at hd),
   (get_notfound_indistinguishable [otherOwnerRow] "d1" "u1").2
      (by
        intro d hd heq
        rcases List.mem_singleton.mp hd with rfl
        intro huid
        simp [otherOwnerRow] at huid)⟩

/-- Walking a list in `k`-sized windows at offsets `0, k, 2k, …` for
enough windows reassembles the list exactly. -/
lemma flatMap_chunks {α : Type} (k : Nat) (_hk : 0 < k) :
    ∀ (n : Nat) (l : List α), l.length ≤ n * k →
      ((List.range n).flatMap fun i => (l.drop (i * k)).take k) = l := by
  intro n
  induction n with
  | zero =>
      intro l hl
      have hnil : l = [] := by
        cases l with
        | nil => rfl
        | cons a t => simp at hl
      subst hnil
      rfl
  | succ n ih =>
      intro l hl
      have hlen : (l.drop k).length ≤ n * k := by
        rw [List.length_drop]
        rw [Nat.succ_mul] at hl
        omega
      have hfun : (fun a => (l.drop ((a + 1) * k)).take k)
          = fun a => ((l.drop k).drop (a * k)).take k := by
        funext a
        rw [List.drop_drop, Nat.succ_mul, Nat.add_comm]
      calc ((List.range (n + 1)).flatMap fun i => (l.drop (i * k)).take k)
          = (l.drop (0 * k)).take k ++
              ((List.range n).flatMap fun a => (l.drop ((a + 1) * k)).take k) := by
            rw [List.range_succ_eq_map, List.flatMap_cons, List.flatMap_map]
        _ = l.take k ++
              ((List.range n).flatMap fun a => ((l.drop k).drop (a * k)).take k) := by
            rw [hfun, Nat.zero_mul, List.drop_zero]
        _ = l.take k ++ l.drop k := by rw [ih (l.drop k) hlen]
        _ = l := List.take_append_drop k l

/-! ## C8 -/

/-- C8: for a page size `k > 0` and enough pages to cover the matching
set, the concatenation of the pages `list(owner, limit=k, offset=i*k)` is
exactly the full owner/type-filtered set, in store order — no duplicates,
no omissions — and every call's `total_count` is the size of the full
matching set whatever `limit` and `offset` are. -/
theorem pagination_pages_cover_exactly (db : List DocumentModel)
    (uid : String) (dtype : Option String) (k n : Nat) (hk : 0 < k)
    (hcover : (db.filter (docMatches uid dtype)).length ≤ n * k) :
    ((List.range n).flatMap fun i => (listDocuments db uid k (i * k) dtype).1)
      = (db.filter (docMatches uid dtype)).map docOfModel
    ∧ ∀ limit offset : Nat,
        (listDocuments db uid limit offset dtype).2
          = (db.filter (docMatches uid dtype)).length := by
  constructor
  · have hpage : ∀ i : Nat, (listDocuments db uid k (i * k) dtype).1
        = (((db.filter (docMatches uid dtype)).drop (i * k)).take k).map
            docOfModel := by
      intro i
      rfl
    calc ((List.range n).flatMap fun i =>
            (listDocuments db uid k (i * k) dtype).1)
        = (List.range n).flatMap fun i =>
            ((((db.filter (docMatches uid dtype)).drop (i * k)).take k).map
              docOfModel) := by
          simp only [hpage]
      _ = ((List.range n).flatMap fun i =>
            (((db.filter (docMatches uid dtype)).drop (i * k)).take k)).map
            docOfModel := by
          rw [List.map_flatMap]
      _ = (db.filter (docMatches uid dtype)).map docOfModel := by
          rw [flatMap_chunks k hk n _ hcover]
  · intro limit offset
    rfl

/-- A concrete store for the pagination witness: three documents of owner
`"u1"` and one of another owner. -/
def dbPages : List DocumentModel :=
  [⟨"a", "u1", "TA", "CA", "guide", [], [], "emb_a", 0, 0⟩,
   ⟨"b", "u1", "TB", "CB", "guide", [], [], "emb_b", 0, 0⟩,
   ⟨"x", "u2", "TX", "CX", "guide", [], [], "emb_x", 0, 0⟩,
   ⟨"c", "u1", "TC", "CC", "faq", [], [], "emb_c", 0, 0⟩]

/-- Witness for `pagination_pages_cover_exactly`: three matching documents
paged with `k = 2` over `n = 2` pages. -/
theorem pagination_pages_cover_exactly_witness :
    ((List.range 2).flatMap fun i => (listDocuments dbPages "u1" 2 (i * 2) none).1)
      = (dbPages.filter (docMatches "u1" none)).map docOfModel
    ∧ (listDocuments dbPages "u1" 2 1 none).2
      = (dbPages.filter (docMatches "u1" none)).length :=
  ⟨(pagination_pages_cover_exactly dbPages "u1" none 2 2 (by decide)
      (by decide)).1,
   (pagination_pages_cover_exactly dbPages "u1" none 2 2 (by decide)
      (by decide)).2 2 1⟩

/-! ## C9 -/

/-- C9: `find_similar` depends on its backend only through the single
query it makes at top-k `limit + 1`; no returned item ever carries the
source document's id (even when the backend ranks the source itself
first); and at most `limit` items are returned. -/
theorem find_similar_excludes_source (embed : String → List ℚ)
    (vsearch vsearch' : VSearch) (db : List DocumentModel)
    (docId uid : String) (limit : Nat)
    (hagree : ∀ (qv : List ℚ) (f : WhereFilter),
        vsearch qv (limit + 1) f = vsearch' qv (limit + 1) f) :
    findSimilar embed vsearch db docId uid limit
        = findSimilar embed vsearch' db docId uid limit
    ∧ (∀ item ∈ findSimilar embed vsearch db docId uid limit,
        item.document_id ≠ docId)
    ∧ (findSimilar embed vsearch db docId uid limit).length ≤ limit := by
  refine ⟨?_, ?_, ?_⟩
  · unfold findSimilar
    cases dbGetDocument db docId uid with
    | none => rfl
    | some doc => simp only [hagree]
  · intro item hitem
    unfold findSimilar at hitem
    cases hdoc : dbGetDocument db docId uid with
    | none => rw [hdoc] at hitem; simp at hitem
    | some doc =>
        rw [hdoc] at hitem
        have hitem2 := List.mem_of_mem_take hitem
        simp only [List.mem_map, List.mem_filter] at hitem2
        obtain ⟨r, ⟨hr, hne⟩, rfl⟩ := hitem2
        simp only [formatResult]
        intro heq
        rw [heq] at hne
        simp at hne
  · unfold findSimilar
    cases dbGetDocument db docId uid with
    | none => simp
    | some doc =>
        have htake : ∀ rs : List SearchResultItem,
            (rs.take limit).length ≤ limit := by
          intro rs
          rw [List.length_take]
          exact Nat.min_le_left _ _
        exact htake _

/-- Witness for `find_similar_excludes_source` with an empty backend and
an empty store. -/
theorem find_similar_excludes_source_witness :
    findSimilar (fun _ => ([] : List ℚ)) (fun _ _ _ => []) [] "d1" "u1" 5
        = findSimilar (fun _ => ([] : List ℚ)) (fun _ _ _ => []) [] "d1"
          "u1" 5
    ∧ (∀ item ∈ findSimilar (fun _ => ([] : List ℚ)) (fun _ _ _ => []) []
          "d1" "u1" 5, item.document_id ≠ "d1")
    ∧ (findSimilar (fun _ => ([] : List ℚ)) (fun _ _ _ => []) [] "d1" "u1"
          5).length ≤ 5 :=
  find_similar_excludes_source (fun _ => []) (fun _ _ _ => [])
    (fun _ _ _ => []) [] "d1" "u1" 5 (fun _ _ => rfl)
